import Mathlib

/-!
Verification development for the Blue computer emulator (src/blue.rs).

The tick engine is embedded shallowly: registers hold their `u16` values as
`Nat`, RAM is a function `Nat → Nat` restricted to 4096 words, and every
operation that can panic in the Rust source (out-of-bounds RAM indexing,
`u16::try_from(..).unwrap()`) is modelled by returning `none`.
-/

namespace Blue

/-- Total memory capacity in words (`RAM_LENGTH`). -/
def RAM_LENGTH : Nat := 4096

-- Processor status flag bits.
def FLAG_ZERO : Nat := 0b0001
def FLAG_CARRY : Nat := 0b0010
def FLAG_OVERFLOW : Nat := 0b0100
def FLAG_NEGATIVE : Nat := 0b1000

/-- Current execution sub-state of the processor (`enum State`). -/
inductive State where
  | execute : State
  | fetch : State
deriving DecidableEq

/-- The complete machine state (`struct BlueComputer`).  The debug settings
and the breakpoint list of the Rust struct are never read or written by the
tick engine (`process_tick` and the `do_*` handlers) and are omitted; the
`IoState` sub-struct is flattened into the two fields `transfer_active` and
`ready`. -/
structure BlueComputer where
  state : State
  transfer_active : Bool
  ready : Bool
  power : Bool
  pc : Nat
  a : Nat
  z : Nat
  sr : Nat
  mar : Nat
  mbr : Nat
  ir : Nat
  ram : Nat → Nat
  dsl : Nat
  dil : Nat
  dol : Nat
  flags : Nat

/-- All supported instructions (`enum Instruction`). -/
inductive Instruction where
  | hlt | add | xor | and | ior | not | lda | sta | srj
  | jma | jmp | inp | out | ral | csa | nop | sub | cmp
deriving DecidableEq

/-- The numeric opcode of each instruction (the `#[repr(u8)]` discriminants
0..17 of `enum Instruction`). -/
def instruction_opcode : Instruction → Nat
  | .hlt => 0 | .add => 1 | .xor => 2 | .and => 3 | .ior => 4
  | .not => 5 | .lda => 6 | .sta => 7 | .srj => 8 | .jma => 9
  | .jmp => 10 | .inp => 11 | .out => 12 | .ral => 13 | .csa => 14
  | .nop => 15 | .sub => 16 | .cmp => 17

/-- `impl TryFrom<u16> for Instruction`: extract the opcode field
`(value & 0xF000) >> 12` and map it to an instruction tag. -/
def instruction_try_from (value : Nat) : Except String Instruction :=
  match (value &&& 0xF000) >>> 12 with
  | 0 => Except.ok Instruction.hlt
  | 1 => Except.ok Instruction.add
  | 2 => Except.ok Instruction.xor
  | 3 => Except.ok Instruction.and
  | 4 => Except.ok Instruction.ior
  | 5 => Except.ok Instruction.not
  | 6 => Except.ok Instruction.lda
  | 7 => Except.ok Instruction.sta
  | 8 => Except.ok Instruction.srj
  | 9 => Except.ok Instruction.jma
  | 10 => Except.ok Instruction.jmp
  | 11 => Except.ok Instruction.inp
  | 12 => Except.ok Instruction.out
  | 13 => Except.ok Instruction.ral
  | 14 => Except.ok Instruction.csa
  | 15 => Except.ok Instruction.nop
  | 16 => Except.ok Instruction.sub
  | 17 => Except.ok Instruction.cmp
  | _ => Except.error ("Invalid instruction opcode")

/-- `get_instruction`: decode the IR.  The Rust source unwraps the
`TryFrom` result; the error arm is unreachable because the extracted field
is at most 15, so the default value of this total model is never produced. -/
def get_instruction (ir : Nat) : Instruction :=
  match instruction_try_from ir with
  | Except.ok i => i
  | Except.error _ => Instruction.hlt

/-- `set_flags`: clear the flag register, then set Zero, Carry, Overflow and
Negative from the result and the two boolean arguments. -/
def set_flags (result : Nat) (carry overflow : Bool) : Nat :=
  (if result = 0 then FLAG_ZERO else 0) |||
    (if carry then FLAG_CARRY else 0) |||
    (if overflow then FLAG_OVERFLOW else 0) |||
    (if result &&& 0x8000 ≠ 0 then FLAG_NEGATIVE else 0)

/-- A RAM read `ram[addr]`; `none` models the Rust index-out-of-bounds
panic. -/
def ramRead (ram : Nat → Nat) (addr : Nat) : Option Nat :=
  if addr < RAM_LENGTH then some (ram addr) else none

/-- A RAM write `ram[addr] = v`; `none` models the index panic. -/
def ramWrite (ram : Nat → Nat) (addr v : Nat) : Option (Nat → Nat) :=
  if addr < RAM_LENGTH then some (fun i => if i = addr then v else ram i) else none

/-- `do_hlt`: halt the processor.  The handler ignores the sub-state. -/
def do_hlt (s : BlueComputer) (tick : Nat) : Option BlueComputer :=
  match tick with
  | 6 => some { s with power := false }
  | 7 => some { s with mar := s.pc }
  | _ => some s

/-- `do_add`: add memory to the accumulator.  At Execute tick 6 the source
computes the widening `u32` sum and then runs `u16::try_from(result).unwrap()`,
which panics (here: `none`) whenever the sum exceeds `0xFFFF`; the carry and
overflow computations that follow use the zero-extended `i32` images of the
16-bit operands, reproduced here on `Nat`. -/
def do_add (s : BlueComputer) (tick : Nat) : Option BlueComputer :=
  match s.state with
  | State.fetch =>
    match tick with
    | 5 => some { s with z := 0 }
    | 6 => some { s with z := s.a }
    | 7 => some { s with mar := s.ir &&& 0x0FFF, state := State.execute }
    | _ => some s
  | State.execute =>
    match tick with
    | 2 => some { s with a := 0, mbr := 0 }
    | 3 => (ramRead s.ram s.mar).map (fun w => { s with mbr := w })
    | 6 =>
      let result := s.z + s.mbr
      if 0xFFFF < result then none
      else
        let carry := decide (0xFFFF < result)
        let overflow := decide (((s.z ^^^ result) &&& 0x8000) ≠ 0)
          && decide (((s.z ^^^ s.mbr) &&& 0x8000) = 0)
        some { s with a := result,
                      flags := set_flags result carry overflow,
                      power := if overflow then false else s.power }
    | 7 => some { s with mar := s.pc, state := State.fetch }
    | _ => some s

/-- `do_xor`: bitwise exclusive OR. -/
def do_xor (s : BlueComputer) (tick : Nat) : Option BlueComputer :=
  match s.state with
  | State.fetch =>
    match tick with
    | 5 => some { s with z := 0 }
    | 6 => some { s with z := s.a }
    | 7 => some { s with mar := s.ir &&& 0x0FFF, state := State.execute }
    | _ => some s
  | State.execute =>
    match tick with
    | 2 => some { s with a := 0, mbr := 0 }
    | 3 => (ramRead s.ram s.mar).map (fun w => { s with mbr := w })
    | 6 =>
      let r := s.z ^^^ s.mbr
      some { s with a := r, flags := set_flags r false false }
    | 7 => some { s with mar := s.pc, state := State.fetch }
    | _ => some s

/-- `do_and`: bitwise AND. -/
def do_and (s : BlueComputer) (tick : Nat) : Option BlueComputer :=
  match s.state with
  | State.fetch =>
    match tick with
    | 5 => some { s with z := 0 }
    | 6 => some { s with z := s.a }
    | 7 => some { s with mar := s.ir &&& 0x0FFF, state := State.execute }
    | _ => some s
  | State.execute =>
    match tick with
    | 2 => some { s with a := 0, mbr := 0 }
    | 3 => (ramRead s.ram s.mar).map (fun w => { s with mbr := w })
    | 6 =>
      let r := s.z &&& s.mbr
      some { s with a := r, flags := set_flags r false false }
    | 7 => some { s with mar := s.pc, state := State.fetch }
    | _ => some s

/-- `do_ior`: bitwise inclusive OR. -/
def do_ior (s : BlueComputer) (tick : Nat) : Option BlueComputer :=
  match s.state with
  | State.fetch =>
    match tick with
    | 5 => some { s with z := 0 }
    | 6 => some { s with z := s.a }
    | 7 => some { s with mar := s.ir &&& 0x0FFF, state := State.execute }
    | _ => some s
  | State.execute =>
    match tick with
    | 2 => some { s with a := 0, mbr := 0 }
    | 3 => (ramRead s.ram s.mar).map (fun w => { s with mbr := w })
    | 6 =>
      let r := s.z ||| s.mbr
      some { s with a := r, flags := set_flags r false false }
    | 7 => some { s with mar := s.pc, state := State.fetch }
    | _ => some s

/-- `do_not`: bitwise complement (`!z` on a `u16` is XOR with `0xFFFF`). -/
def do_not (s : BlueComputer) (tick : Nat) : Option BlueComputer :=
  match s.state with
  | State.fetch =>
    match tick with
    | 5 => some { s with z := 0 }
    | 6 => some { s with z := s.a }
    | 7 => some { s with state := State.execute }
    | _ => some s
  | State.execute =>
    match tick with
    | 0 => some { s with a := 0 }
    | 1 => some { s with a := s.z ^^^ 0xFFFF }
    | 7 => some { s with mar := s.pc, state := State.fetch }
    | _ => some s

/-- `do_lda`: load the accumulator from memory. -/
def do_lda (s : BlueComputer) (tick : Nat) : Option BlueComputer :=
  match s.state with
  | State.fetch =>
    match tick with
    | 7 => some { s with state := State.execute, mar := s.ir &&& 0x0FFF }
    | _ => some s
  | State.execute =>
    match tick with
    | 1 => some { s with a := 0 }
    | 2 => some { s with mbr := 0 }
    | 4 => (ramRead s.ram s.mar).map (fun w => { s with a := w, mbr := w })
    | 7 => some { s with mar := s.pc, state := State.fetch }
    | _ => some s

/-- `do_sta`: store the accumulator to memory. -/
def do_sta (s : BlueComputer) (tick : Nat) : Option BlueComputer :=
  match s.state with
  | State.fetch =>
    match tick with
    | 7 => some { s with state := State.execute, mar := s.ir &&& 0x0FFF }
    | _ => some s
  | State.execute =>
    match tick with
    | 3 => some { s with mbr := 0 }
    | 4 => (ramWrite s.ram s.mar s.a).map (fun r => { s with ram := r, mbr := s.a })
    | 7 => some { s with mar := s.pc, state := State.fetch }
    | _ => some s

/-- `do_srj`: subroutine jump.  The handler ignores the sub-state. -/
def do_srj (s : BlueComputer) (tick : Nat) : Option BlueComputer :=
  match tick with
  | 5 => some { s with a := s.pc &&& 0x0FFF }
  | 6 => some { s with pc := 0 }
  | 7 => some { s with mar := s.ir &&& 0x0FFF, pc := s.ir &&& 0x0FFF }
  | _ => some s

/-- `do_jma`: jump if the accumulator is negative. -/
def do_jma (s : BlueComputer) (tick : Nat) : Option BlueComputer :=
  match tick with
  | 5 => some (if s.a &&& 0x8000 ≠ 0 then { s with pc := 0 } else s)
  | 6 => some (if s.a &&& 0x8000 ≠ 0 then { s with pc := s.ir &&& 0x0FFF } else s)
  | 7 => some { s with mar := s.pc }
  | _ => some s

/-- `do_jmp`: unconditional jump. -/
def do_jmp (s : BlueComputer) (tick : Nat) : Option BlueComputer :=
  match tick with
  | 5 => some { s with pc := 0 }
  | 6 => some { s with pc := s.ir &&& 0x0FFF }
  | 7 => some { s with mar := s.pc }
  | _ => some s

/-- `do_inp`: input from a device.  `(dil << 8) & 0xFF00` on a `u16` is the
wrapped shift masked to the high byte. -/
def do_inp (s : BlueComputer) (tick : Nat) : Option BlueComputer :=
  match s.state with
  | State.fetch =>
    match tick with
    | 5 => some { s with a := 0, dsl := s.ir &&& 0x003F }
    | 6 => some { s with transfer_active := true }
    | 7 => some { s with state := State.execute }
    | _ => some s
  | State.execute =>
    match tick with
    | 4 => some (if s.ready then { s with a := ((s.dil <<< 8) % 65536) &&& 0xFF00 } else s)
    | 5 => some (if s.ready then { s with transfer_active := false } else s)
    | 7 => some (if s.transfer_active = false
                 then { s with state := State.fetch, mar := s.pc } else s)
    | _ => some s

/-- `do_out`: output to a device. -/
def do_out (s : BlueComputer) (tick : Nat) : Option BlueComputer :=
  match s.state with
  | State.fetch =>
    match tick with
    | 5 => some { s with dol := (s.a >>> 8) &&& 0x00FF, dsl := s.ir &&& 0x003F }
    | 6 => some { s with transfer_active := true }
    | 7 => some { s with state := State.execute }
    | _ => some s
  | State.execute =>
    match tick with
    | 4 => some (if s.ready then { s with transfer_active := false } else s)
    | 7 => some (if s.transfer_active = false
                 then { s with state := State.fetch, mar := s.pc } else s)
    | _ => some s

/-- `do_ral`: rotate the accumulator left (`z << 1` wraps on a `u16`). -/
def do_ral (s : BlueComputer) (tick : Nat) : Option BlueComputer :=
  match s.state with
  | State.fetch =>
    match tick with
    | 5 => some { s with z := 0 }
    | 6 => some { s with z := s.a }
    | 7 => some { s with state := State.execute }
    | _ => some s
  | State.execute =>
    match tick with
    | 0 => some { s with a := 0 }
    | 1 => some { s with a := ((s.z &&& 0x8000) >>> 15) ||| ((s.z <<< 1) % 65536) }
    | 7 => some { s with mar := s.pc, state := State.fetch }
    | _ => some s

/-- `do_csa`: copy the switch register to the accumulator. -/
def do_csa (s : BlueComputer) (tick : Nat) : Option BlueComputer :=
  match tick with
  | 5 => some { s with a := 0 }
  | 6 => some { s with a := s.sr }
  | 7 => some { s with mar := s.pc }
  | _ => some s

/-- `do_nop`: no operation. -/
def do_nop (s : BlueComputer) (tick : Nat) : Option BlueComputer :=
  match tick with
  | 7 => some { s with mar := s.pc }
  | _ => some s

/-- `do_sub`: subtract memory from the accumulator (extension).  At Execute
tick 6 the source forms the `i32` difference of the zero-extended operands and
runs `u16::try_from(result).unwrap()`, which panics (here: `none`) whenever
the difference is negative (or above `0xFFFF`, impossible for `u16` inputs);
in the surviving branch the `i32` values `z`, `m` and `result` all lie in
`[0, 0xFFFF]`, so carry and overflow are computed on `Nat`. -/
def do_sub (s : BlueComputer) (tick : Nat) : Option BlueComputer :=
  match s.state with
  | State.fetch =>
    match tick with
    | 5 => some { s with z := 0 }
    | 6 => some { s with z := s.a }
    | 7 => some { s with mar := s.ir &&& 0x0FFF, state := State.execute }
    | _ => some s
  | State.execute =>
    match tick with
    | 2 => some { s with a := 0, mbr := 0 }
    | 3 => (ramRead s.ram s.mar).map (fun w => { s with mbr := w })
    | 6 =>
      let result : Int := (s.z : Int) - (s.mbr : Int)
      if result < 0 ∨ (0xFFFF : Int) < result then none
      else
        let r := result.toNat
        let carry := decide (s.z < s.mbr)
        let overflow := decide (((s.z ^^^ s.mbr) &&& 0x8000) ≠ 0)
          && decide (((s.z ^^^ r) &&& 0x8000) ≠ 0)
        some { s with a := r, flags := set_flags r carry overflow }
    | 7 => some { s with mar := s.pc, state := State.fetch }
    | _ => some s

/-- `do_cmp`: compare memory with the accumulator (extension).  Identical
arithmetic to `do_sub` at Execute tick 6 — including the `unwrap` panic on a
negative difference — but the result is only used for the flags; the
accumulator is never written, and there is no tick-2 clearing arm. -/
def do_cmp (s : BlueComputer) (tick : Nat) : Option BlueComputer :=
  match s.state with
  | State.fetch =>
    match tick with
    | 5 => some { s with z := 0 }
    | 6 => some { s with z := s.a }
    | 7 => some { s with mar := s.ir &&& 0x0FFF, state := State.execute }
    | _ => some s
  | State.execute =>
    match tick with
    | 3 => (ramRead s.ram s.mar).map (fun w => { s with mbr := w })
    | 6 =>
      let result : Int := (s.z : Int) - (s.mbr : Int)
      if result < 0 ∨ (0xFFFF : Int) < result then none
      else
        let r := result.toNat
        let carry := decide (s.z < s.mbr)
        let overflow := decide (((s.z ^^^ s.mbr) &&& 0x8000) ≠ 0)
          && decide (((s.z ^^^ r) &&& 0x8000) ≠ 0)
        some { s with flags := set_flags r carry overflow }
    | 7 => some { s with mar := s.pc, state := State.fetch }
    | _ => some s

/-- Dispatch a tick to the current instruction's handler (the `match` at the
end of `process_tick`). -/
def execInstr (i : Instruction) (s : BlueComputer) (tick : Nat) : Option BlueComputer :=
  match i with
  | Instruction.hlt => do_hlt s tick
  | Instruction.add => do_add s tick
  | Instruction.xor => do_xor s tick
  | Instruction.and => do_and s tick
  | Instruction.ior => do_ior s tick
  | Instruction.not => do_not s tick
  | Instruction.lda => do_lda s tick
  | Instruction.sta => do_sta s tick
  | Instruction.srj => do_srj s tick
  | Instruction.jma => do_jma s tick
  | Instruction.jmp => do_jmp s tick
  | Instruction.inp => do_inp s tick
  | Instruction.out => do_out s tick
  | Instruction.ral => do_ral s tick
  | Instruction.csa => do_csa s tick
  | Instruction.nop => do_nop s tick
  | Instruction.sub => do_sub s tick
  | Instruction.cmp => do_cmp s tick

/-- `process_tick`: the tick-common Fetch-phase actions (PC increment at
tick 2, MBR clear at tick 3, instruction fetch at tick 4, IR latch at
tick 5), followed by dispatch on the instruction decoded from the — possibly
just-updated — IR.  The `u16` increment `pc += 1` cannot wrap before the
unmasked RAM fetch at `mar = pc` has already gone out of bounds, so it is
modelled as a plain `Nat` successor. -/
def process_tick (s : BlueComputer) (tick : Nat) : Option BlueComputer :=
  let common : Option BlueComputer :=
    match tick with
    | 2 => some (if s.state = State.fetch then { s with pc := s.pc + 1 } else s)
    | 3 => some (if s.state = State.fetch then { s with mbr := 0 } else s)
    | 4 => if s.state = State.fetch
           then (ramRead s.ram s.mar).map (fun w => { s with ir := 0, mbr := w })
           else some s
    | 5 => some (if s.state = State.fetch then { s with ir := s.mbr } else s)
    | _ => some s
  common.bind (fun s1 => execInstr (get_instruction s1.ir) s1 tick)

/-- `emulate_cycle`: execute a full 8-tick cycle (the clock pulse starts at 0
and is reset to 0 afterwards). -/
def emulate_cycle (s : BlueComputer) : Option BlueComputer :=
  (process_tick s 0).bind (fun s => (process_tick s 1).bind (fun s =>
    (process_tick s 2).bind (fun s => (process_tick s 3).bind (fun s =>
      (process_tick s 4).bind (fun s => (process_tick s 5).bind (fun s =>
        (process_tick s 6).bind (fun s => process_tick s 7)))))))

/-- Iterate `emulate_cycle` (the loop of `run_program`). -/
def run_cycles : Nat → BlueComputer → Option BlueComputer
  | 0, s => some s
  | k + 1, s => (emulate_cycle s).bind (run_cycles k)

/-- The power-on state of `run_program`: `BlueComputer::new()` (all registers
zero, sub-state Fetch, I/O idle) with the given memory image and the power
flag set by `press_on`. -/
def powerOnState (ram : Nat → Nat) : BlueComputer :=
  { state := State.fetch, transfer_active := false, ready := false,
    power := true, pc := 0, a := 0, z := 0, sr := 0, mar := 0, mbr := 0,
    ir := 0, ram := ram, dsl := 0, dil := 0, dol := 0, flags := 0 }

/-- An all-zero memory image. -/
def zeroRam : Nat → Nat := fun _ => 0

/-!  General facts about the tick engine used by several claims. -/

/-- Every handler leaves the machine untouched at ticks 0–4 of the Fetch
sub-state: in Fetch each handler only has arms at ticks 5, 6 and 7. -/
theorem fetch_idle (i : Instruction) (s : BlueComputer) (t : Nat)
    (hs : s.state = State.fetch) (ht : t ≤ 4) : execInstr i s t = some s := by
  obtain ⟨st, ta, rd, pw, pc, a, z, sr, mar, mbr, ir, ram, dsl, dil, dol, fl⟩ := s
  dsimp only at hs
  subst hs
  interval_cases t <;> cases i <;> rfl

/-- Tick 0 of a Fetch cycle: no common action, idle dispatch. -/
theorem pt_tick0 (s : BlueComputer) (hs : s.state = State.fetch) :
    process_tick s 0 = some s :=
  fetch_idle (get_instruction s.ir) s 0 hs (by decide)

/-- Tick 1 of a Fetch cycle: no common action, idle dispatch. -/
theorem pt_tick1 (s : BlueComputer) (hs : s.state = State.fetch) :
    process_tick s 1 = some s :=
  fetch_idle (get_instruction s.ir) s 1 hs (by decide)

/-- Tick 2 of a Fetch cycle: the common PC increment, idle dispatch. -/
theorem pt_tick2 (s : BlueComputer) (hs : s.state = State.fetch) :
    process_tick s 2 = some { s with pc := s.pc + 1 } := by
  show (some (if s.state = State.fetch then { s with pc := s.pc + 1 } else s)).bind
      (fun s1 => execInstr (get_instruction s1.ir) s1 2) = some { s with pc := s.pc + 1 }
  rw [if_pos hs]
  exact fetch_idle _ _ _ hs (by decide)

/-- Tick 3 of a Fetch cycle: the common MBR clear, idle dispatch. -/
theorem pt_tick3 (s : BlueComputer) (hs : s.state = State.fetch) :
    process_tick s 3 = some { s with mbr := 0 } := by
  show (some (if s.state = State.fetch then { s with mbr := 0 } else s)).bind
      (fun s1 => execInstr (get_instruction s1.ir) s1 3) = some { s with mbr := 0 }
  rw [if_pos hs]
  exact fetch_idle _ _ _ hs (by decide)

/-- Tick 4 of a Fetch cycle: IR cleared and MBR loaded from `ram[mar]`,
idle dispatch (on IR = 0, i.e. HLT, which has no tick-4 arm). -/
theorem pt_tick4 (s : BlueComputer) (hs : s.state = State.fetch) (w : Nat)
    (hr : ramRead s.ram s.mar = some w) :
    process_tick s 4 = some { s with ir := 0, mbr := w } := by
  show (if s.state = State.fetch
        then (ramRead s.ram s.mar).map (fun w => { s with ir := 0, mbr := w })
        else some s).bind
      (fun s1 => execInstr (get_instruction s1.ir) s1 4) = some { s with ir := 0, mbr := w }
  rw [if_pos hs, hr]
  exact fetch_idle _ _ _ hs (by decide)

/-- Tick 5 of a Fetch cycle: IR is latched from MBR and the dispatch already
uses the freshly decoded instruction. -/
theorem pt_tick5 (s : BlueComputer) (hs : s.state = State.fetch) :
    process_tick s 5 = execInstr (get_instruction s.mbr) { s with ir := s.mbr } 5 := by
  show (some (if s.state = State.fetch then { s with ir := s.mbr } else s)).bind
      (fun s1 => execInstr (get_instruction s1.ir) s1 5)
    = execInstr (get_instruction s.mbr) { s with ir := s.mbr } 5
  rw [if_pos hs]
  rfl

/-- Tick 6 has no common action. -/
theorem pt_tick6 (s : BlueComputer) :
    process_tick s 6 = execInstr (get_instruction s.ir) s 6 := rfl

/-- Tick 7 has no common action. -/
theorem pt_tick7 (s : BlueComputer) :
    process_tick s 7 = execInstr (get_instruction s.ir) s 7 := rfl

/-!  Claims C1 and C2: the ADD and SUB arithmetic at Execute tick 6. -/

/-- An Execute-tick-6 state about to run ADD on `Z = 0x8000`,
`MBR = 0x8000` (unsigned sum `0x10000`). -/
def addFailState : BlueComputer :=
  { powerOnState zeroRam with state := State.execute, z := 0x8000, mbr := 0x8000 }

/-- Claim C1 (failing input): on `Z = 0x8000`, `MBR = 0x8000` the ADD
handler's Execute tick 6 does not complete: the widened sum `0x10000`
exceeds `0xFFFF`, so `u16::try_from(result).unwrap()` panics (modelled as
`none`) instead of wrapping to `A = 0` with the Carry flag set. -/
theorem c1_add_carry_panics : do_add addFailState 6 = none := rfl

/-- An Execute-tick-6 state about to run SUB on `Z = 0`, `MBR = 1`
(borrow case). -/
def subFailState : BlueComputer :=
  { powerOnState zeroRam with state := State.execute, z := 0, mbr := 1 }

/-- Claim C2 (failing input): on `Z = 0`, `MBR = 1` the SUB handler's
Execute tick 6 does not complete: the `i32` difference is `-1`, so
`u16::try_from(result).unwrap()` panics (modelled as `none`) instead of
wrapping to `A = 0xFFFF` with the Carry (borrow) flag set. -/
theorem c2_sub_borrow_panics : do_sub subFailState 6 = none := rfl

/-!  Claim C3: the PC is never masked, so a long enough straight-line run
drives `mar = pc` to 4096 and the common fetch indexes `ram[4096]`,
out of bounds. -/

/-- A memory image consisting entirely of NOP instructions (`0xF000`). -/
def nopRam : Nat → Nat := fun _ => 0xF000

/-- The machine state at the start of cycle `n + 1` of the all-NOP run:
the first cycle latches `IR = MBR = 0xF000`, and every later cycle only
advances `pc` and `mar` together. -/
def nopM (n : Nat) : BlueComputer :=
  { state := State.fetch, transfer_active := false, ready := false,
    power := true, pc := n, a := 0, z := 0, sr := 0, mar := n, mbr := 0xF000,
    ir := 0xF000, ram := nopRam, dsl := 0, dil := 0, dol := 0, flags := 0 }

/-- The all-NOP cycle state after tick 2 (PC incremented). -/
def nopT2 (n : Nat) : BlueComputer :=
  { state := State.fetch, transfer_active := false, ready := false,
    power := true, pc := n + 1, a := 0, z := 0, sr := 0, mar := n, mbr := 0xF000,
    ir := 0xF000, ram := nopRam, dsl := 0, dil := 0, dol := 0, flags := 0 }

/-- The all-NOP cycle state after tick 3 (MBR cleared). -/
def nopT3 (n : Nat) : BlueComputer :=
  { state := State.fetch, transfer_active := false, ready := false,
    power := true, pc := n + 1, a := 0, z := 0, sr := 0, mar := n, mbr := 0,
    ir := 0xF000, ram := nopRam, dsl := 0, dil := 0, dol := 0, flags := 0 }

/-- The all-NOP cycle state after tick 4 (IR cleared, MBR loaded). -/
def nopT4 (n : Nat) : BlueComputer :=
  { state := State.fetch, transfer_active := false, ready := false,
    power := true, pc := n + 1, a := 0, z := 0, sr := 0, mar := n, mbr := 0xF000,
    ir := 0, ram := nopRam, dsl := 0, dil := 0, dol := 0, flags := 0 }

/-- The all-NOP cycle state after tick 5 (IR latched). -/
def nopT5 (n : Nat) : BlueComputer :=
  { state := State.fetch, transfer_active := false, ready := false,
    power := true, pc := n + 1, a := 0, z := 0, sr := 0, mar := n, mbr := 0xF000,
    ir := 0xF000, ram := nopRam, dsl := 0, dil := 0, dol := 0, flags := 0 }

/-- Decoding the NOP word. -/
theorem g_nop : get_instruction 0xF000 = Instruction.nop := rfl

/-- NOP is a no-op at tick 5. -/
theorem exec_nop5 (s : BlueComputer) : execInstr Instruction.nop s 5 = some s := rfl

/-- NOP is a no-op at tick 6. -/
theorem exec_nop6 (s : BlueComputer) : execInstr Instruction.nop s 6 = some s := rfl

/-- NOP copies PC to MAR at tick 7. -/
theorem exec_nop7 (s : BlueComputer) :
    execInstr Instruction.nop s 7 = some { s with mar := s.pc } := rfl

/-- One full all-NOP cycle advances `pc` and `mar` in lockstep, without any
12-bit masking of the PC. -/
theorem nop_cycle (n : Nat) (h : n < 4096) :
    emulate_cycle (nopM n) = some (nopM (n + 1)) := by
  have hr : ramRead (nopT3 n).ram (nopT3 n).mar = some 0xF000 := by
    show ramRead nopRam n = some 0xF000
    unfold ramRead RAM_LENGTH
    rw [if_pos h]
    rfl
  unfold emulate_cycle
  rw [pt_tick0 _ rfl, Option.some_bind', pt_tick1 _ rfl, Option.some_bind',
    pt_tick2 _ rfl, Option.some_bind']
  show (process_tick (nopT2 n) 3).bind (fun s => (process_tick s 4).bind (fun s =>
      (process_tick s 5).bind (fun s => (process_tick s 6).bind (fun s =>
        process_tick s 7)))) = some (nopM (n + 1))
  rw [pt_tick3 _ rfl, Option.some_bind']
  show (process_tick (nopT3 n) 4).bind (fun s => (process_tick s 5).bind (fun s =>
      (process_tick s 6).bind (fun s => process_tick s 7))) = some (nopM (n + 1))
  rw [pt_tick4 _ rfl 0xF000 hr, Option.some_bind']
  show (process_tick (nopT4 n) 5).bind (fun s => (process_tick s 6).bind (fun s =>
      process_tick s 7)) = some (nopM (n + 1))
  rw [pt_tick5 _ rfl, show (nopT4 n).mbr = 0xF000 from rfl, g_nop, exec_nop5,
    Option.some_bind']
  show (process_tick (nopT5 n) 6).bind (fun s => process_tick s 7) = some (nopM (n + 1))
  rw [pt_tick6, show (nopT5 n).ir = 0xF000 from rfl, g_nop, exec_nop6, Option.some_bind',
    pt_tick7, show (nopT5 n).ir = 0xF000 from rfl, g_nop, exec_nop7]
  rfl

/-- At `pc = mar = 4096` the next fetch (tick 4 of cycle 4097) indexes
`ram[4096]`, out of bounds: the cycle aborts. -/
theorem nop_cycle_end : emulate_cycle (nopM 4096) = none := rfl

/-- The first cycle from power-on over all-NOP memory: `IR` is `0` (HLT)
until the tick-5 latch, after which NOP runs. -/
theorem nop_start : emulate_cycle (powerOnState nopRam) = some (nopM 1) := rfl

/-- Running the all-NOP program from cycle-start state `nopM n` for the
remaining `k + 1` cycles aborts on the out-of-bounds fetch. -/
theorem nop_run (k : Nat) : ∀ n, n + k = 4096 → run_cycles (k + 1) (nopM n) = none := by
  induction k with
  | zero =>
    intro n hn
    have hn2 : n = 4096 := by omega
    subst hn2
    rw [run_cycles, nop_cycle_end]
    rfl
  | succ k ih =>
    intro n hn
    rw [run_cycles, nop_cycle n (by omega), Option.some_bind']
    exact ih (n + 1) (by omega)

/-- Claim C3 (failing run): from power-on with an all-NOP memory image the
tick engine aborts within 4097 cycles — the unmasked PC increment drives
`pc` to 4096, tick 7 copies it into MAR, and the next common fetch indexes
`ram[4096]`, an out-of-range access.  Under the claim, no reachable memory
access could ever be out of bounds. -/
theorem c3_pc_unmasked_oob : run_cycles 4097 (powerOnState nopRam) = none := by
  rw [show (4097 : Nat) = 4096 + 1 from rfl, run_cycles, nop_start, Option.some_bind']
  exact nop_run 4095 1 (by omega)

/-!  Claim C10: in the Fetch sub-state no handler mutates anything at ticks
0–4, so dispatching on the stale IR is harmless. -/

/-- Claim C10: for every opcode handler, every machine state in the Fetch
sub-state and every tick `t ≤ 4`, the handler returns the state unchanged —
dispatching ticks 0–4 of a fetch cycle on the stale IR (re-latched only at
tick 5) has no observable effect. -/
theorem c10_fetch_handlers_idle (i : Instruction) (s : BlueComputer) (t : Nat)
    (hs : s.state = State.fetch) (ht : t ≤ 4) : execInstr i s t = some s :=
  fetch_idle i s t hs ht

/-- Witness for C10 at a concrete input: the ADD handler at Fetch tick 3
leaves the power-on state unchanged. -/
theorem c10_fetch_handlers_idle_witness :
    (powerOnState zeroRam).state = State.fetch ∧ (3 : Nat) ≤ 4 ∧
      execInstr Instruction.add (powerOnState zeroRam) 3 = some (powerOnState zeroRam) :=
  ⟨rfl, by decide, c10_fetch_handlers_idle Instruction.add (powerOnState zeroRam) 3 rfl (by decide)⟩

/-!  Claims C4 and C5: the opcode field `(IR & 0xF000) >> 12` of any 16-bit
word lies in `[0, 15]`, so the decoder's extension arms (16 and 17) and its
error arm are all unreachable from a stored instruction word. -/

/-- The extracted opcode field is at most 15, for every input word. -/
theorem opcode_field_le (w : Nat) : (w &&& 0xF000) >>> 12 ≤ 15 := by
  have h1 : w &&& 0xF000 ≤ 0xF000 := Nat.and_le_right
  have h2 : (w &&& 0xF000) >>> 12 = (w &&& 0xF000) / 4096 := by
    rw [Nat.shiftRight_eq_div_pow]
  rw [h2]
  omega

/-- Decoding never fails: `try_from` always takes one of the 16 base arms,
and `get_instruction` is the unwrapped value. -/
theorem try_from_eq_ok (w : Nat) :
    instruction_try_from w = Except.ok (get_instruction w) := by
  have h := opcode_field_le w
  unfold get_instruction instruction_try_from
  generalize (w &&& 0xF000) >>> 12 = k at h ⊢
  interval_cases k <;> rfl

/-- `get_instruction` never yields the extension tags SUB or CMP. -/
theorem get_instruction_base (w : Nat) :
    get_instruction w ≠ Instruction.sub ∧ get_instruction w ≠ Instruction.cmp := by
  have h := opcode_field_le w
  unfold get_instruction instruction_try_from
  generalize (w &&& 0xF000) >>> 12 = k at h ⊢
  interval_cases k <;> exact ⟨by decide, by decide⟩

/-- Claim C4 (counterexample): there is no 16-bit IR word whose decoded
instruction is SUB — the opcode field of a 16-bit word is at most 15, so the
extension arm 16 of `try_from` is dead and the claimed word does not exist. -/
theorem c4_no_sub_decode :
    ¬ ∃ w, w < 65536 ∧ instruction_try_from w = Except.ok Instruction.sub := by
  rintro ⟨w, hw, h⟩
  rw [try_from_eq_ok] at h
  exact (get_instruction_base w).1 (Except.ok.inj h)

/-- Claim C4 (amended): the decoder maps the opcode field of every 16-bit IR
word onto the 16 base tags only — decoding always succeeds, never yields SUB
(opcode 16) or CMP (opcode 17), and each of the 16 base tags is reachable
from the word with its opcode in the top 4 bits. -/
theorem c4_decoder_base16 :
    (∀ w, w < 65536 → instruction_try_from w = Except.ok (get_instruction w)
        ∧ get_instruction w ≠ Instruction.sub ∧ get_instruction w ≠ Instruction.cmp)
    ∧ (∀ i : Instruction, i ≠ Instruction.sub → i ≠ Instruction.cmp →
        instruction_try_from (instruction_opcode i <<< 12) = Except.ok i) := by
  constructor
  · intro w _
    exact ⟨try_from_eq_ok w, get_instruction_base w⟩
  · intro i h1 h2
    cases i <;> first | rfl | exact absurd rfl h1 | exact absurd rfl h2

/-- Witness for C4 (amended) at the concrete word `0x1234`. -/
theorem c4_decoder_base16_witness :
    (0x1234 : Nat) < 65536 ∧ (instruction_try_from 0x1234 = Except.ok (get_instruction 0x1234)
      ∧ get_instruction 0x1234 ≠ Instruction.sub ∧ get_instruction 0x1234 ≠ Instruction.cmp) :=
  ⟨by decide, c4_decoder_base16.1 0x1234 (by decide)⟩

/-- Claim C5 (counterexample): no 16-bit IR word has an opcode field outside
the supported set — decoding never returns the error value, so the claimed
failing word does not exist (and the clean-halt path is unreachable). -/
theorem c5_no_decode_failure :
    ¬ ∃ w e, w < 65536 ∧ instruction_try_from w = Except.error e := by
  rintro ⟨w, e, hw, h⟩
  rw [try_from_eq_ok] at h
  exact Except.noConfusion h

/-- Claim C5 (amended): decoding a stored 16-bit instruction word always
succeeds; the decoder's error arm — and with it the typed-decode-error halt
path and the panic in `get_instruction`'s unwrap — is dead code. -/
theorem c5_decode_total (w : Nat) (hw : w < 65536) (e : String) :
    instruction_try_from w ≠ Except.error e := by
  rw [try_from_eq_ok]
  exact fun h => Except.noConfusion h

/-- Witness for C5 (amended) at the concrete word `0xFFFF`. -/
theorem c5_decode_total_witness :
    (0xFFFF : Nat) < 65536 ∧
      instruction_try_from 0xFFFF ≠ Except.error ("Invalid instruction opcode") :=
  ⟨by decide, c5_decode_total 0xFFFF (by decide) ("Invalid instruction opcode")⟩

/-!  Claim C6: the SRJ cycle.  The common Fetch logic increments the PC at
tick 2, before `do_srj` saves it into the accumulator at tick 5, so the
saved return address is `(p + 1) & 0xFFF`, not `p & 0xFFF`. -/

/-- SRJ at tick 5 saves the (already incremented) PC into A. -/
theorem exec_srj5 (s : BlueComputer) :
    execInstr Instruction.srj s 5 = some { s with a := s.pc &&& 0x0FFF } := rfl

/-- SRJ at tick 6 clears the PC. -/
theorem exec_srj6 (s : BlueComputer) :
    execInstr Instruction.srj s 6 = some { s with pc := 0 } := rfl

/-- SRJ at tick 7 loads MAR with the address field and copies it to PC. -/
theorem exec_srj7 (s : BlueComputer) :
    execInstr Instruction.srj s 7
      = some { s with mar := s.ir &&& 0x0FFF, pc := s.ir &&& 0x0FFF } := rfl

/-- Claim C6 (amended): starting a Fetch cycle at `PC = MAR = p` on an SRJ
word with address field `t`, one full 8-tick cycle ends with
`A = (p + 1) & 0xFFF` — the PC incremented by the common fetch logic at
tick 2, i.e. the return address of the following instruction — and
`PC = MAR = t`. -/
theorem c6_srj_cycle (p t w : Nat) (s : BlueComputer)
    (h1 : s.state = State.fetch) (h2 : s.pc = p) (h3 : s.mar = p) (h4 : p < 4096)
    (h5 : s.ram p = w) (h6 : get_instruction w = Instruction.srj) (h7 : w &&& 0x0FFF = t) :
    (emulate_cycle s).map BlueComputer.a = some ((p + 1) &&& 0x0FFF)
    ∧ (emulate_cycle s).map BlueComputer.pc = some t
    ∧ (emulate_cycle s).map BlueComputer.mar = some t := by
  have hr : ramRead s.ram s.mar = some w := by
    unfold ramRead RAM_LENGTH
    rw [h3, if_pos h4, h5]
  unfold emulate_cycle
  rw [pt_tick0 _ h1, Option.some_bind', pt_tick1 _ h1, Option.some_bind',
    pt_tick2 _ h1, Option.some_bind', pt_tick3 _ (by exact h1), Option.some_bind']
  dsimp only
  rw [pt_tick4 _ (by exact h1) w (by exact hr), Option.some_bind']
  dsimp only
  rw [pt_tick5 _ (by exact h1)]
  dsimp only
  rw [h6, exec_srj5, Option.some_bind']
  dsimp only
  rw [pt_tick6]
  dsimp only
  rw [h6, exec_srj6, Option.some_bind']
  dsimp only
  rw [pt_tick7]
  dsimp only
  rw [h6, exec_srj7]
  dsimp only
  rw [h7, h2]
  exact ⟨rfl, rfl, rfl⟩

/-- A memory image with an SRJ instruction (target 9) at address 5. -/
def srjProbeRam : Nat → Nat := fun i => if i = 5 then 0x8009 else 0

/-- A Fetch-cycle start state with `PC = MAR = 5` pointing at `SRJ 9`. -/
def srjProbeState : BlueComputer :=
  { powerOnState srjProbeRam with pc := 5, mar := 5 }

/-- Claim C6 (counterexample): with `PC = p = 5` pointing at an SRJ whose
address field is `9`, the cycle ends with `A = 6`, not `p & 0xFFF = 5` as
the claim states. -/
theorem c6_srj_counterexample :
    (emulate_cycle srjProbeState).map BlueComputer.a = some 6 ∧ (6 : Nat) ≠ 5 &&& 0x0FFF :=
  ⟨rfl, by decide⟩

/-- Witness for C6 (amended) at the concrete start state `srjProbeState`. -/
theorem c6_srj_cycle_witness :
    (emulate_cycle srjProbeState).map BlueComputer.a = some ((5 + 1) &&& 0x0FFF)
    ∧ (emulate_cycle srjProbeState).map BlueComputer.pc = some 9
    ∧ (emulate_cycle srjProbeState).map BlueComputer.mar = some 9 :=
  c6_srj_cycle 5 9 0x8009 srjProbeState rfl rfl rfl (by decide) rfl rfl (by decide)

/-!  Claim C7: the common ALU tick schedule, with CMP deviating at Execute
tick 2 (no clear) and ADD/SUB/CMP panicking at tick 6 on carry/borrow. -/

/-- `Int.toNat` of a difference of `Nat` casts is truncating `Nat`
subtraction. -/
theorem int_toNat_coe_sub (m n : Nat) : ((m : Int) - (n : Int)).toNat = m - n := by
  omega

/-- An Execute state with a nonzero accumulator, about to take CMP's
tick 2. -/
def cmpTick2State : BlueComputer :=
  { powerOnState zeroRam with state := State.execute, a := 3, mbr := 7 }

/-- Claim C7 (counterexample): CMP does not follow the common ALU Execute
tick 2 — `do_cmp` has no tick-2 arm, so with `A = 3`, `MBR = 7` the state is
returned unchanged instead of both registers being cleared. -/
theorem c7_cmp_tick2_counterexample :
    do_cmp cmpTick2State 2 = some cmpTick2State
    ∧ cmpTick2State.a = 3 ∧ cmpTick2State.mbr = 7 ∧ (3 : Nat) ≠ 0 :=
  ⟨rfl, rfl, rfl, by decide⟩

/-- Claim C7 (amended): the ALU-class opcodes follow the common schedule —
Fetch tick 5 `Z = 0`, tick 6 `Z = A`, tick 7 `MAR = IR & 0xFFF` and switch
to Execute; Execute tick 3 `MBR = memory[MAR]`, tick 6 the operation with
`set_flags`, tick 7 `MAR = PC` and switch back to Fetch — with two
deviations forced by the code: Execute tick 2 clears A and MBR for ADD,
XOR, AND, IOR and SUB but is a no-op for CMP, and the tick-6 operation of
ADD (on carry) and SUB/CMP (on borrow) panics instead of completing. -/
theorem c7_alu_schedule (s : BlueComputer) :
    (s.state = State.fetch →
      (do_add s 5 = some { s with z := 0 } ∧ do_xor s 5 = some { s with z := 0 }
        ∧ do_and s 5 = some { s with z := 0 } ∧ do_ior s 5 = some { s with z := 0 }
        ∧ do_sub s 5 = some { s with z := 0 } ∧ do_cmp s 5 = some { s with z := 0 })
      ∧ (do_add s 6 = some { s with z := s.a } ∧ do_xor s 6 = some { s with z := s.a }
        ∧ do_and s 6 = some { s with z := s.a } ∧ do_ior s 6 = some { s with z := s.a }
        ∧ do_sub s 6 = some { s with z := s.a } ∧ do_cmp s 6 = some { s with z := s.a })
      ∧ (do_add s 7 = some { s with mar := s.ir &&& 0x0FFF, state := State.execute }
        ∧ do_xor s 7 = some { s with mar := s.ir &&& 0x0FFF, state := State.execute }
        ∧ do_and s 7 = some { s with mar := s.ir &&& 0x0FFF, state := State.execute }
        ∧ do_ior s 7 = some { s with mar := s.ir &&& 0x0FFF, state := State.execute }
        ∧ do_sub s 7 = some { s with mar := s.ir &&& 0x0FFF, state := State.execute }
        ∧ do_cmp s 7 = some { s with mar := s.ir &&& 0x0FFF, state := State.execute }))
    ∧ (s.state = State.execute →
      (do_add s 2 = some { s with a := 0, mbr := 0 } ∧ do_xor s 2 = some { s with a := 0, mbr := 0 }
        ∧ do_and s 2 = some { s with a := 0, mbr := 0 } ∧ do_ior s 2 = some { s with a := 0, mbr := 0 }
        ∧ do_sub s 2 = some { s with a := 0, mbr := 0 }
        ∧ do_cmp s 2 = some s)
      ∧ (do_add s 3 = (ramRead s.ram s.mar).map (fun w => { s with mbr := w })
        ∧ do_xor s 3 = (ramRead s.ram s.mar).map (fun w => { s with mbr := w })
        ∧ do_and s 3 = (ramRead s.ram s.mar).map (fun w => { s with mbr := w })
        ∧ do_ior s 3 = (ramRead s.ram s.mar).map (fun w => { s with mbr := w })
        ∧ do_sub s 3 = (ramRead s.ram s.mar).map (fun w => { s with mbr := w })
        ∧ do_cmp s 3 = (ramRead s.ram s.mar).map (fun w => { s with mbr := w }))
      ∧ (do_add s 7 = some { s with mar := s.pc, state := State.fetch }
        ∧ do_xor s 7 = some { s with mar := s.pc, state := State.fetch }
        ∧ do_and s 7 = some { s with mar := s.pc, state := State.fetch }
        ∧ do_ior s 7 = some { s with mar := s.pc, state := State.fetch }
        ∧ do_sub s 7 = some { s with mar := s.pc, state := State.fetch }
        ∧ do_cmp s 7 = some { s with mar := s.pc, state := State.fetch })
      ∧ (do_xor s 6 = some { s with a := s.z ^^^ s.mbr, flags := set_flags (s.z ^^^ s.mbr) false false }
        ∧ do_and s 6 = some { s with a := s.z &&& s.mbr, flags := set_flags (s.z &&& s.mbr) false false }
        ∧ do_ior s 6 = some { s with a := s.z ||| s.mbr, flags := set_flags (s.z ||| s.mbr) false false }
        ∧ (s.z + s.mbr ≤ 0xFFFF → do_add s 6 = some
          { s with
              a := s.z + s.mbr,
              flags := set_flags (s.z + s.mbr) (decide (0xFFFF < s.z + s.mbr))
                (decide (((s.z ^^^ (s.z + s.mbr)) &&& 0x8000) ≠ 0)
                  && decide (((s.z ^^^ s.mbr) &&& 0x8000) = 0)),
              power := if (decide (((s.z ^^^ (s.z + s.mbr)) &&& 0x8000) ≠ 0)
                  && decide (((s.z ^^^ s.mbr) &&& 0x8000) = 0)) then false else s.power })
        ∧ (0xFFFF < s.z + s.mbr → do_add s 6 = none)
        ∧ (s.mbr ≤ s.z → s.z ≤ 0xFFFF → do_sub s 6 = some
          { s with
              a := s.z - s.mbr,
              flags := set_flags (s.z - s.mbr) (decide (s.z < s.mbr))
                (decide (((s.z ^^^ s.mbr) &&& 0x8000) ≠ 0)
                  && decide (((s.z ^^^ (s.z - s.mbr)) &&& 0x8000) ≠ 0)) })
        ∧ (s.z < s.mbr → do_sub s 6 = none)
        ∧ (s.mbr ≤ s.z → s.z ≤ 0xFFFF → do_cmp s 6 = some
          { s with
              flags := set_flags (s.z - s.mbr) (decide (s.z < s.mbr))
                (decide (((s.z ^^^ s.mbr) &&& 0x8000) ≠ 0)
                  && decide (((s.z ^^^ (s.z - s.mbr)) &&& 0x8000) ≠ 0)) })
        ∧ (s.z < s.mbr → do_cmp s 6 = none))) := by
  obtain ⟨st, ta, rd, pw, pc, a, z, sr, mar, mbr, ir, ram, dsl, dil, dol, fl⟩ := s
  constructor
  · intro h
    dsimp only at h
    subst h
    exact ⟨⟨rfl, rfl, rfl, rfl, rfl, rfl⟩, ⟨rfl, rfl, rfl, rfl, rfl, rfl⟩,
      ⟨rfl, rfl, rfl, rfl, rfl, rfl⟩⟩
  · intro h
    dsimp only at h
    subst h
    refine ⟨⟨rfl, rfl, rfl, rfl, rfl, rfl⟩, ⟨rfl, rfl, rfl, rfl, rfl, rfl⟩,
      ⟨rfl, rfl, rfl, rfl, rfl, rfl⟩, rfl, rfl, rfl, ?_, ?_, ?_, ?_, ?_, ?_⟩
    · intro h6
      dsimp only at h6
      dsimp only [do_add]
      rw [if_neg (by omega)]
    · intro h6
      dsimp only at h6
      dsimp only [do_add]
      rw [if_pos h6]
    · intro hm hz
      dsimp only at hm hz
      dsimp only [do_sub]
      rw [if_neg (by omega)]
      rw [int_toNat_coe_sub]
    · intro hm
      dsimp only at hm
      dsimp only [do_sub]
      rw [if_pos (by omega)]
    · intro hm hz
      dsimp only at hm hz
      dsimp only [do_cmp]
      rw [if_neg (by omega)]
      rw [int_toNat_coe_sub]
    · intro hm
      dsimp only at hm
      dsimp only [do_cmp]
      rw [if_pos (by omega)]

/-- An Execute state for exercising the ALU tick-6 equations
(`Z = 5`, `MBR = 3`). -/
def aluProbe : BlueComputer :=
  { powerOnState zeroRam with state := State.execute, z := 5, mbr := 3 }

/-- Witness for C7 (amended): the ADD tick-6 equation at `Z = 5`,
`MBR = 3`. -/
theorem c7_alu_schedule_witness :
    aluProbe.state = State.execute ∧ aluProbe.z + aluProbe.mbr ≤ 0xFFFF ∧
      do_add aluProbe 6 = some
        { aluProbe with
            a := aluProbe.z + aluProbe.mbr,
            flags := set_flags (aluProbe.z + aluProbe.mbr)
              (decide (0xFFFF < aluProbe.z + aluProbe.mbr))
              (decide (((aluProbe.z ^^^ (aluProbe.z + aluProbe.mbr)) &&& 0x8000) ≠ 0)
                && decide (((aluProbe.z ^^^ aluProbe.mbr) &&& 0x8000) = 0)),
            power := if (decide (((aluProbe.z ^^^ (aluProbe.z + aluProbe.mbr)) &&& 0x8000) ≠ 0)
                && decide (((aluProbe.z ^^^ aluProbe.mbr) &&& 0x8000) = 0))
              then false else aluProbe.power } :=
  ⟨rfl, by decide, ((c7_alu_schedule aluProbe).2 rfl).2.2.2.2.2.2.1 (by decide)⟩

/-!  Claim C8: CMP versus SUB. -/

/-- Claim C8: the CMP handler never writes the accumulator (at any tick of
either sub-state, whenever it completes); SUB writes it — clearing it at
Execute tick 2 and storing the difference at tick 6 — and for identical
`(Z, MBR)` pairs the flag outcome of CMP's Execute tick 6 is identical to
SUB's (including the shared borrow-panic cases, where neither produces
flags). -/
theorem c8_cmp_vs_sub (s : BlueComputer) :
    (∀ t : Nat, ∀ s2, do_cmp s t = some s2 → s2.a = s.a)
    ∧ (s.state = State.execute → do_sub s 2 = some { s with a := 0, mbr := 0 })
    ∧ (s.state = State.execute → ∀ s2, do_sub s 6 = some s2 →
        s2.a = ((s.z : Int) - (s.mbr : Int)).toNat)
    ∧ (s.state = State.execute →
        (do_sub s 6).map BlueComputer.flags = (do_cmp s 6).map BlueComputer.flags) := by
  obtain ⟨st, ta, rd, pw, pc, a, z, sr, mar, mbr, ir, ram, dsl, dil, dol, fl⟩ := s
  refine ⟨?_, ?_, ?_, ?_⟩
  · intro t s2 h
    cases st <;> rcases t with _|_|_|_|_|_|_|_|t <;>
      first
      | (cases h; rfl)
      | (dsimp only [do_cmp, ramRead] at h
         split at h <;> first | (cases h; rfl) | exact Option.noConfusion h)
  · intro h
    dsimp only at h
    subst h
    rfl
  · intro h s2 h2
    dsimp only at h
    subst h
    dsimp only [do_sub] at h2
    split at h2
    · exact Option.noConfusion h2
    · cases h2
      rfl
  · intro h
    dsimp only at h
    subst h
    dsimp only [do_sub, do_cmp]
    split <;> rfl

/-- An Execute state with `A = 3`, `Z = 9`, `MBR = 4` for the CMP/SUB
differential. -/
def cmpProbe : BlueComputer :=
  { powerOnState zeroRam with state := State.execute, a := 3, z := 9, mbr := 4 }

/-- Witness for C8 at `Z = 9`, `MBR = 4`: SUB and CMP report identical
flags, and SUB clears A at Execute tick 2. -/
theorem c8_cmp_vs_sub_witness :
    cmpProbe.state = State.execute
    ∧ (do_sub cmpProbe 6).map BlueComputer.flags = (do_cmp cmpProbe 6).map BlueComputer.flags
    ∧ do_sub cmpProbe 2 = some { cmpProbe with a := 0, mbr := 0 } :=
  ⟨rfl, (c8_cmp_vs_sub cmpProbe).2.2.2 rfl, (c8_cmp_vs_sub cmpProbe).2.1 rfl⟩

/-!  Claim C9: the INP handshake. -/

/-- Claim C9: INP's Fetch schedule (tick 5 `A = 0`, `DSL = IR & 0x3F`;
tick 6 `transfer_active = true`; tick 7 switch to Execute) and its Execute
busy-wait (tick 4 loads A from DIL shifted into the high byte only when
`ready`; tick 5 clears `transfer_active` only when `ready`; tick 7 returns
to Fetch with `MAR = PC` iff `transfer_active` is false, and otherwise
leaves the state unchanged so Execute is re-entered next cycle). -/
theorem c9_inp_handshake (s : BlueComputer) :
    (s.state = State.fetch →
      do_inp s 5 = some { s with a := 0, dsl := s.ir &&& 0x003F }
      ∧ do_inp s 6 = some { s with transfer_active := true }
      ∧ do_inp s 7 = some { s with state := State.execute })
    ∧ (s.state = State.execute →
      (s.ready = true → do_inp s 4 = some { s with a := ((s.dil <<< 8) % 65536) &&& 0xFF00 })
      ∧ (s.ready = false → do_inp s 4 = some s)
      ∧ (s.ready = true → do_inp s 5 = some { s with transfer_active := false })
      ∧ (s.ready = false → do_inp s 5 = some s)
      ∧ (s.transfer_active = false →
          do_inp s 7 = some { s with state := State.fetch, mar := s.pc })
      ∧ (s.transfer_active = true → do_inp s 7 = some s)) := by
  obtain ⟨st, ta, rd, pw, pc, a, z, sr, mar, mbr, ir, ram, dsl, dil, dol, fl⟩ := s
  constructor
  · intro h
    dsimp only at h
    subst h
    exact ⟨rfl, rfl, rfl⟩
  · intro h
    dsimp only at h
    subst h
    refine ⟨?_, ?_, ?_, ?_, ?_, ?_⟩ <;> intro h2 <;> dsimp only at h2 <;> subst h2 <;> rfl

/-- An Execute state mid-INP-handshake with the device ready and
`DIL = 0xAA`. -/
def inpProbe : BlueComputer :=
  { powerOnState zeroRam with
      state := State.execute, transfer_active := true, ready := true, dil := 0xAA }

/-- Witness for C9: with `ready = true` and `DIL = 0xAA`, Execute tick 4
loads `A = 0xAA00`. -/
theorem c9_inp_handshake_witness :
    inpProbe.state = State.execute ∧ inpProbe.ready = true ∧
      do_inp inpProbe 4 = some { inpProbe with a := ((inpProbe.dil <<< 8) % 65536) &&& 0xFF00 } :=
  ⟨rfl, rfl, ((c9_inp_handshake inpProbe).2 rfl).1 rfl⟩

end Blue
